import Mathlib

/-!
Shallow embedding of the resilient content-acquisition pipeline of a
Google-News article scraper: the retry/circuit-breaker resilience layer
(`src/utils/retry_utils.py`), the redirect-URL decoders
(`src/scrapers/google_news_url_decoder.py` and
`src/scrapers/google_news_decoder.py`), the extraction tiers' validation
logic (`src/scrapers/article_scraper.py`) and the acquisition orchestrator
(`src/scrapers/full_article_scraper.py`).

Network and parsing side effects are passed in as explicit oracle
functions.  Python exceptions are modelled by the `PyErr` type; a Python
function that may raise is embedded as a Lean function into
`Except PyErr _`.  Wall-clock instants (`time.time()`) are modelled as
integers passed explicitly to each stateful step.
-/

namespace NewsScraper

/-- Python exception values relevant to the pipeline.  `httpError s` stands
for `requests.exceptions.HTTPError` with `response.status_code = s` (a
subclass of `RequestException`); `nameError n` is a `NameError` for the
unbound name `n`; `breakerOpen` is `CircuitBreakerOpenException`. -/
inductive PyErr where
  | httpError (status : Nat)
  | connectionError
  | timeoutError
  | nameError (n : String)
  | valueError (msg : String)
  | breakerOpen
  | other (msg : String)
deriving DecidableEq

/-- The three circuit-breaker states of `retry_utils.CircuitBreaker.state`. -/
inductive CBState where
  | CLOSED
  | OPEN
  | HALF_OPEN
deriving DecidableEq

/-- State of `retry_utils.CircuitBreaker` (configuration plus mutable fields). -/
structure CircuitBreaker where
  failure_threshold : Nat
  recovery_timeout : Int
  failure_count : Nat
  last_failure_time : Option Int
  state : CBState
deriving DecidableEq

/-- `CircuitBreaker.__init__`: zero failures, no recorded failure time, CLOSED. -/
def CircuitBreaker.init (failure_threshold : Nat) (recovery_timeout : Int) :
    CircuitBreaker :=
  { failure_threshold := failure_threshold
    recovery_timeout := recovery_timeout
    failure_count := 0
    last_failure_time := none
    state := .CLOSED }

/-- Python truthiness of the `last_failure_time` attribute (`None` and `0.0`
are falsy, every other number is truthy). -/
def timeTruthy : Option Int → Bool
  | none => false
  | some t => t != 0

/-- The admission check at the top of `CircuitBreaker.call`: when the state is
OPEN and `last_failure_time` is truthy and `now - last_failure_time >
recovery_timeout`, move to HALF_OPEN and admit the call; when OPEN otherwise,
reject; in any other state admit.  Returns the breaker after the check and
whether the protected operation is invoked. -/
def CircuitBreaker.gate (cb : CircuitBreaker) (now : Int) : CircuitBreaker × Bool :=
  if cb.state = .OPEN then
    if timeTruthy cb.last_failure_time ∧
        now - (cb.last_failure_time.getD 0) > cb.recovery_timeout then
      ({ cb with state := .HALF_OPEN }, true)
    else
      (cb, false)
  else
    (cb, true)

/-- `CircuitBreaker._on_success`: reset the counter and close the breaker. -/
def CircuitBreaker.on_success (cb : CircuitBreaker) : CircuitBreaker :=
  { cb with failure_count := 0, state := .CLOSED }

/-- `CircuitBreaker._on_failure`: bump the counter, record the failure time,
and open the breaker once the counter reaches the threshold. -/
def CircuitBreaker.on_failure (cb : CircuitBreaker) (now : Int) : CircuitBreaker :=
  let fc := cb.failure_count + 1
  { cb with
      failure_count := fc
      last_failure_time := some now
      state := if cb.failure_threshold ≤ fc then .OPEN else cb.state }

/-- The observable outcome of one `CircuitBreaker.call`: the breaker
afterwards, the returned value or raised exception, and whether the protected
operation was actually invoked. -/
structure CallOutcome (α : Type) where
  cb : CircuitBreaker
  result : Except PyErr α
  invoked : Bool

/-- `CircuitBreaker.call(func)` at instant `now`, where `op` is the outcome
the protected operation would produce if invoked.  A rejected call raises
`CircuitBreakerOpenException` without invoking the operation; an admitted
call runs the operation, records success or failure, and passes the result
or re-raises the exception. -/
def CircuitBreaker.call {α : Type} (cb : CircuitBreaker) (now : Int)
    (op : Except PyErr α) : CallOutcome α :=
  let g := cb.gate now
  if g.2 then
    match op with
    | .ok a => ⟨g.1.on_success, .ok a, true⟩
    | .error e => ⟨g.1.on_failure now, .error e, true⟩
  else
    ⟨g.1, .error .breakerOpen, false⟩

/-- C1: for a `CircuitBreaker` with `failure_threshold = 2` starting CLOSED,
two consecutive failing calls leave it OPEN with counter 2; any call while
`now - last_failure_time ≤ recovery_timeout` raises the breaker-open error
without invoking the operation and changes nothing; the first call after the
timeout passes the admission check in HALF_OPEN state and invokes the
operation, and if that operation succeeds the breaker is CLOSED with
`failure_count = 0`. -/
theorem C1_circuit_breaker_lifecycle
    (T t1 t2 t3 t4 : Int) (e1 e2 : PyErr) {α : Type} (a : α)
    (op3 : Except PyErr α)
    (h2 : t2 ≠ 0) (h3 : t3 - t2 ≤ T) (h4 : t4 - t2 > T) :
    let cb0 := CircuitBreaker.init 2 T
    let s1 := (cb0.call t1 (Except.error e1 : Except PyErr α)).cb
    let s2 := (s1.call t2 (Except.error e2 : Except PyErr α)).cb
    (s2.state = .OPEN ∧ s2.failure_count = 2 ∧ s2.last_failure_time = some t2) ∧
    ((s2.call t3 op3).result = .error .breakerOpen ∧
      (s2.call t3 op3).invoked = false ∧ (s2.call t3 op3).cb = s2) ∧
    ((s2.gate t4).1.state = .HALF_OPEN ∧ (s2.gate t4).2 = true ∧
      (s2.call t4 (Except.ok a)).invoked = true ∧
      (s2.call t4 (Except.ok a)).result = .ok a ∧
      (s2.call t4 (Except.ok a)).cb.state = .CLOSED ∧
      (s2.call t4 (Except.ok a)).cb.failure_count = 0) := by
  intro cb0 s1 s2
  have hs2 : s2 =
      { failure_threshold := 2
        recovery_timeout := T
        failure_count := 2
        last_failure_time := some t2
        state := .OPEN } := by
    show (CircuitBreaker.call _ t2 _).cb = _
    simp [cb0, s1, CircuitBreaker.init, CircuitBreaker.call, CircuitBreaker.gate,
      CircuitBreaker.on_failure]
  have hcond3 : ¬(timeTruthy (some t2) = true ∧ t3 - (some t2).getD 0 > T) := by
    rintro ⟨-, hgt⟩
    simp only [Option.getD] at hgt
    omega
  have hgate3 : s2.gate t3 = (s2, false) := by
    rw [hs2]
    simp only [CircuitBreaker.gate]
    rw [if_pos trivial, if_neg hcond3]
  have hcond4 : timeTruthy (some t2) = true ∧ t4 - (some t2).getD 0 > T := by
    refine ⟨by simp [timeTruthy, h2], by simpa using h4⟩
  have hgate4 : s2.gate t4 =
      ({ failure_threshold := 2
         recovery_timeout := T
         failure_count := 2
         last_failure_time := some t2
         state := .HALF_OPEN }, true) := by
    rw [hs2]
    simp only [CircuitBreaker.gate]
    rw [if_pos trivial, if_pos hcond4]
  refine ⟨⟨by rw [hs2], by rw [hs2], by rw [hs2]⟩, ?_, ?_⟩
  · simp [CircuitBreaker.call, hgate3]
  · refine ⟨?_, ?_, ?_, ?_, ?_, ?_⟩ <;>
      simp [CircuitBreaker.call, hgate4, CircuitBreaker.on_success]

/-- Witness for C1 at `T = 60`, failures at times 10 and 20, a rejected call
at time 50, and a successful trial call at time 100. -/
theorem C1_circuit_breaker_lifecycle_witness :
    (20 : Int) ≠ 0 ∧ (50 : Int) - 20 ≤ 60 ∧ (100 : Int) - 20 > 60 ∧
    (let cb0 := CircuitBreaker.init 2 60
     let s1 := (cb0.call 10 (Except.error PyErr.connectionError : Except PyErr Nat)).cb
     let s2 := (s1.call 20 (Except.error PyErr.connectionError : Except PyErr Nat)).cb
     (s2.state = .OPEN ∧ s2.failure_count = 2 ∧ s2.last_failure_time = some 20) ∧
     ((s2.call 50 (Except.ok 7)).result = .error .breakerOpen ∧
       (s2.call 50 (Except.ok 7)).invoked = false ∧ (s2.call 50 (Except.ok 7)).cb = s2) ∧
     ((s2.gate 100).1.state = .HALF_OPEN ∧ (s2.gate 100).2 = true ∧
       (s2.call 100 (Except.ok 7)).invoked = true ∧
       (s2.call 100 (Except.ok 7)).result = .ok 7 ∧
       (s2.call 100 (Except.ok 7)).cb.state = .CLOSED ∧
       (s2.call 100 (Except.ok 7)).cb.failure_count = 0)) :=
  ⟨by decide, by decide, by decide,
    C1_circuit_breaker_lifecycle 60 10 20 50 100 PyErr.connectionError
      PyErr.connectionError 7 (Except.ok 7) (by decide) (by decide) (by decide)⟩

/-- `retry_utils.is_rate_limit_error`: true exactly for an `HTTPError` whose
`response.status_code` is 429. -/
def is_rate_limit_error : PyErr → Bool
  | .httpError s => s == 429
  | _ => false

/-- Membership of the wrapper's `exceptions` tuple for the default and
network policies, `(RequestException, ConnectionError, TimeoutError)`;
`HTTPError` is a subclass of `RequestException`.  `NameError`,
`CircuitBreakerOpenException` and the rest are not caught. -/
def networkRetryable : PyErr → Bool
  | .httpError _ => true
  | .connectionError => true
  | .timeoutError => true
  | _ => false

/-- The keyword arguments of `retry_with_backoff`; delays are modelled as
exact rationals. -/
structure RetryPolicy where
  max_retries : Nat
  base_delay : ℚ
  max_delay : ℚ
  exponential_base : ℚ
  jitter : Bool
  rate_limit_delay : ℚ

/-- The delay computed by one iteration of the wrapper's retry loop for the
caught error `e` at loop index `attempt`, where `r` is the value
`random.random()` would produce: a rate-limit error always receives the fixed
`rate_limit_delay`; any other error receives
`min(base_delay * exponential_base ** attempt, max_delay)`; the jitter
multiplier `0.5 + r * 0.5` is applied only when `jitter` is set and the error
is not a rate-limit error. -/
def computeDelay (p : RetryPolicy) (attempt : Nat) (e : PyErr) (r : ℚ) : ℚ :=
  let delay : ℚ :=
    if is_rate_limit_error e then p.rate_limit_delay
    else min (p.base_delay * p.exponential_base ^ attempt) p.max_delay
  if p.jitter && !(is_rate_limit_error e) then delay * (1/2 + r * (1/2)) else delay

/-- Observable trace of one run of the retry wrapper: the returned value or
finally raised exception, the number of invocations of the wrapped function,
and the sleep delays computed between attempts. -/
structure RetryTrace (α : Type) where
  result : Except PyErr α
  calls : Nat
  delays : List ℚ

/-- The `for attempt in range(max_retries + 1)` loop of the wrapper produced
by `retry_with_backoff` (no circuit breaker passed), entered at loop index
`attempt` with `fuel` iterations left.  `op i` is the outcome the wrapped
function produces on its i-th invocation, `retryable` is membership of the
`exceptions` tuple, and `rand i` is the jitter value drawn on iteration `i`.
An error outside `exceptions` is not caught and propagates at once; at
`attempt == max_retries` the original error is re-raised unchanged. -/
def retryLoop {α : Type} (p : RetryPolicy) (retryable : PyErr → Bool)
    (rand : Nat → ℚ) (op : Nat → Except PyErr α) :
    Nat → Nat → RetryTrace α
  | _, 0 => ⟨.error (.other "loop exhausted"), 0, []⟩
  | attempt, fuel + 1 =>
    match op attempt with
    | .ok a => ⟨.ok a, 1, []⟩
    | .error e =>
      if retryable e then
        if attempt == p.max_retries then ⟨.error e, 1, []⟩
        else
          let d := computeDelay p attempt e (rand attempt)
          let rest := retryLoop p retryable rand op (attempt + 1) fuel
          ⟨rest.result, rest.calls + 1, d :: rest.delays⟩
      else ⟨.error e, 1, []⟩

/-- The wrapper `retry_with_backoff(...)` applied to a function, without a
circuit breaker: run the loop from attempt 0; the loop returns or raises
within `max_retries + 1` iterations. -/
def retry_with_backoff {α : Type} (p : RetryPolicy) (retryable : PyErr → Bool)
    (rand : Nat → ℚ) (op : Nat → Except PyErr α) : RetryTrace α :=
  retryLoop p retryable rand op 0 (p.max_retries + 1)

/-- C2: with `base_delay = 1`, `exponential_base = 2`, `max_delay = 60` and
`jitter = False`, for an operation that raises the same retryable
non-rate-limit error on every attempt, the computed sleep delays before
attempts 2, 3 and 4 are exactly 1, 2 and 4 seconds (run with
`max_retries = 3`, whose trace performs exactly those three sleeps); and with
`max_retries = 2` the wrapper invokes the operation exactly 3 times in total
and re-raises the original exception value unchanged. -/
theorem C2_retry_backoff_delays_and_attempts (e : PyErr) (rand : Nat → ℚ)
    (hr : networkRetryable e = true) (hnr : is_rate_limit_error e = false) :
    (retry_with_backoff ⟨3, 1, 60, 2, false, 10⟩ networkRetryable rand
        (fun _ => (Except.error e : Except PyErr Nat))).delays = [1, 2, 4] ∧
    (retry_with_backoff ⟨2, 1, 60, 2, false, 10⟩ networkRetryable rand
        (fun _ => (Except.error e : Except PyErr Nat))).calls = 3 ∧
    (retry_with_backoff ⟨2, 1, 60, 2, false, 10⟩ networkRetryable rand
        (fun _ => (Except.error e : Except PyErr Nat))).result = .error e := by
  refine ⟨?_, ?_, ?_⟩
  · simp [retry_with_backoff, retryLoop, computeDelay, hr, hnr]
    norm_num
  · simp [retry_with_backoff, retryLoop, computeDelay, hr, hnr]
  · simp [retry_with_backoff, retryLoop, computeDelay, hr, hnr]

/-- Witness for C2 with a `ConnectionError`. -/
theorem C2_retry_backoff_delays_and_attempts_witness :
    networkRetryable .connectionError = true ∧
    is_rate_limit_error .connectionError = false ∧
    ((retry_with_backoff ⟨3, 1, 60, 2, false, 10⟩ networkRetryable (fun _ => 0)
        (fun _ => (Except.error .connectionError : Except PyErr Nat))).delays = [1, 2, 4] ∧
      (retry_with_backoff ⟨2, 1, 60, 2, false, 10⟩ networkRetryable (fun _ => 0)
        (fun _ => (Except.error .connectionError : Except PyErr Nat))).calls = 3 ∧
      (retry_with_backoff ⟨2, 1, 60, 2, false, 10⟩ networkRetryable (fun _ => 0)
        (fun _ => (Except.error .connectionError : Except PyErr Nat))).result =
        .error .connectionError) :=
  ⟨rfl, rfl,
    C2_retry_backoff_delays_and_attempts .connectionError (fun _ => 0) rfl rfl⟩

/-- Helper for C6: every sleep of a run whose operation always raises a
rate-limit error is the fixed `rate_limit_delay`. -/
theorem retryLoop_rate_limit_delays (p : RetryPolicy) (rand : Nat → ℚ)
    {α : Type} (e : PyErr) (he : is_rate_limit_error e = true)
    (hr : networkRetryable e = true) :
    ∀ fuel attempt, attempt + fuel = p.max_retries + 1 →
      (retryLoop p networkRetryable rand
          (fun _ => (Except.error e : Except PyErr α)) attempt fuel).delays =
        List.replicate (fuel - 1) p.rate_limit_delay := by
  intro fuel
  induction fuel with
  | zero => intro attempt h; simp [retryLoop]
  | succ n ih =>
    intro attempt h
    simp only [retryLoop, hr, if_true]
    by_cases hlast : attempt = p.max_retries
    · simp [hlast]
      omega
    · have hne : (attempt == p.max_retries) = false := by
        simp [hlast]
      have hn : 1 ≤ n := by omega
      rw [hne]
      simp only [Bool.false_eq_true, if_false, computeDelay, he, if_true,
        Bool.and_eq_true]
      have := ih (attempt + 1) (by omega)
      simp only [this]
      have hrep : List.replicate (n + 1 - 1) p.rate_limit_delay =
          p.rate_limit_delay :: List.replicate (n - 1) p.rate_limit_delay := by
        have : n + 1 - 1 = (n - 1) + 1 := by omega
        rw [this, List.replicate_succ]
      rw [hrep]
      simp [he]

/-- C6: an attempt whose raised error is classified as a rate-limit error
(HTTP status 429) always gets the fixed `rate_limit_delay` — independent of
the attempt number and with no jitter multiplier: the whole trace of a run
against a perpetually-429 operation sleeps `rate_limit_delay` before every
retry.  The exponential formula (with the jitter multiplier when enabled) is
applied exactly to the non-rate-limit retryable errors. -/
theorem C6_rate_limit_fixed_delay (p : RetryPolicy) (rand : Nat → ℚ)
    (attempt : Nat) (r : ℚ) (e e' : PyErr)
    (he : is_rate_limit_error e = true) (he' : is_rate_limit_error e' = false) :
    computeDelay p attempt e r = p.rate_limit_delay ∧
    (retry_with_backoff p networkRetryable rand
        (fun _ => (Except.error e : Except PyErr Nat))).delays =
      List.replicate p.max_retries p.rate_limit_delay ∧
    computeDelay p attempt e' r =
      (if p.jitter then
        min (p.base_delay * p.exponential_base ^ attempt) p.max_delay * (1/2 + r * (1/2))
      else
        min (p.base_delay * p.exponential_base ^ attempt) p.max_delay) := by
  have hr : networkRetryable e = true := by
    cases e <;> simp_all [is_rate_limit_error, networkRetryable]
  refine ⟨by simp [computeDelay, he], ?_, by simp [computeDelay, he']⟩
  have := retryLoop_rate_limit_delays p rand (α := Nat) e he hr (p.max_retries + 1) 0
    (by omega)
  simpa [retry_with_backoff] using this

/-- Witness for C6 at a concrete policy, `HTTPError(429)` and
`ConnectionError`. -/
theorem C6_rate_limit_fixed_delay_witness :
    is_rate_limit_error (.httpError 429) = true ∧
    is_rate_limit_error .connectionError = false ∧
    (computeDelay ⟨2, 1, 60, 2, true, 15⟩ 1 (.httpError 429) (1/3) = 15 ∧
      (retry_with_backoff ⟨2, 1, 60, 2, true, 15⟩ networkRetryable (fun _ => 1/3)
          (fun _ => (Except.error (.httpError 429) : Except PyErr Nat))).delays =
        List.replicate 2 15 ∧
      computeDelay ⟨2, 1, 60, 2, true, 15⟩ 1 .connectionError (1/3) =
        (if (true : Bool) then min ((1 : ℚ) * 2 ^ 1) 60 * (1/2 + (1/3) * (1/2))
         else min ((1 : ℚ) * 2 ^ 1) 60)) :=
  ⟨rfl, rfl,
    C6_rate_limit_fixed_delay ⟨2, 1, 60, 2, true, 15⟩ (fun _ => 1/3) 1 (1/3)
      (.httpError 429) .connectionError rfl rfl⟩

/-- Split a character list at every character satisfying `p`; each separator
character ends the current field. -/
def splitByPred (p : Char → Bool) : List Char → List (List Char)
  | [] => [[]]
  | c :: rest =>
    if p c then [] :: splitByPred p rest
    else
      match splitByPred p rest with
      | [] => [[c]]
      | h :: t => (c :: h) :: t

/-- Python `s.split(sep)` for a one-character separator. -/
def pySplitOn (sep : Char) (s : String) : List String :=
  (splitByPred (fun c => c == sep) s.data).map String.mk

/-- Python `str.split()` with no argument: whitespace-delimited fields,
empty fields discarded. -/
def pySplit (s : String) : List String :=
  ((splitByPred Char.isWhitespace s.data).map String.mk).filter (fun w => w ≠ "")

/-- `len(s.split())`, the word count used by the validation floors. -/
def wordCount (s : String) : Nat := (pySplit s).length

/-- Python `str.strip()` with no argument: remove leading and trailing
whitespace. -/
def pyStrip (s : String) : String :=
  String.mk (((s.data.dropWhile Char.isWhitespace).reverse.dropWhile
    Char.isWhitespace).reverse)

/-- Python `str.lower()` (the texts here are ASCII). -/
def pyLower (s : String) : String := String.mk (s.data.map Char.toLower)

/-- Python `"\n".join(lines)`. -/
def joinLines : List String → String
  | [] => ""
  | [line] => line
  | line :: rest => line ++ "\n" ++ joinLines rest

/-- Python `" ".join(words)`, used to build concrete test texts. -/
def joinWords : List String → String
  | [] => ""
  | [w] => w
  | w :: rest => w ++ " " ++ joinWords rest

/-- Occurrence of `pat` as a contiguous run inside a character list. -/
def listHasSub (pat : List Char) : List Char → Bool
  | [] => pat.isEmpty
  | c :: rest => pat.isPrefixOf (c :: rest) || listHasSub pat rest

/-- Python `sub in s` on strings: `sub` occurs as a substring of `s`. -/
def pyContains (s sub : String) : Bool := listHasSub sub.data s.data

/-- The `VERIFY_MESSAGES` list of `article_scraper.py`. -/
def VERIFY_MESSAGES : List String :=
  ["you are human", "are you human", "i\x27m not a robot", "recaptcha"]

/-- The `UNWANTED_KEYWORDS` list of `article_scraper.py`, duplicates kept. -/
def UNWANTED_KEYWORDS : List String :=
  ["subscribe now", "sign up", "newsletter", "subscribe now",
   "sign up for our newsletter", "exclusive offer", "limited time offer",
   "free trial", "download now", "join now", "register today",
   "special promotion", "promotional offer", "discount code", "early access",
   "sneak peek", "save now", "don\x27t miss out", "act now", "last chance",
   "expires soon", "giveaway", "free access", "premium access",
   "unlock full access", "buy now", "learn more", "click here",
   "follow us on", "share this article", "connect with us", "advertisement",
   "sponsored content", "partner content", "affiliate links", "click here",
   "for more information", "you may also like", "we think you\x27ll like",
   "from our network"]

/-- `ArticleScraper.clean_text`: split the text on newline characters, strip
each line, keep only lines with more than 4 words, then drop lines containing
any filter word as a lowercased substring, and rejoin the survivors with
newlines.  (The `try/except` wrapper returns the input unchanged on an
exception; none of these steps can raise.) -/
def clean_text (filter_words : List String) (text : String) : String :=
  let lines := (pySplitOn (Char.ofNat 10) text).map pyStrip
  let lines := lines.filter (fun line => 4 < (pySplit line).length)
  let filtered := lines.filter (fun line =>
    !(filter_words.any (fun kw => pyContains (pyLower line) (pyLower kw))))
  joinLines filtered

/-- C8: content cleaning keeps exactly the (stripped) lines that have at
least 5 words and contain no blocklist member as a case-insensitive
substring, and returns the survivors rejoined with newlines; the keep
condition is false for every line of 4 or fewer words. -/
theorem C8_clean_text_keeps_exactly_long_clean_lines
    (filter_words : List String) (text : String) :
    clean_text filter_words text =
      joinLines
        (((pySplitOn (Char.ofNat 10) text).map pyStrip).filter (fun line =>
          decide (5 ≤ wordCount line) &&
          !(filter_words.any (fun kw => pyContains (pyLower line) (pyLower kw))))) ∧
    (∀ line : String, wordCount line ≤ 4 →
      (decide (5 ≤ wordCount line) &&
        !(filter_words.any (fun kw => pyContains (pyLower line) (pyLower kw)))) =
        false) := by
  constructor
  · unfold clean_text
    dsimp only
    rw [List.filter_filter]
    congr 1
    apply List.filter_congr
    intro line _
    have h45 : (decide (4 < (pySplit line).length)) = decide (5 ≤ wordCount line) := by
      simp [wordCount, Nat.lt_iff_add_one_le]
    rw [Bool.and_comm]
    rw [h45]
  · intro line hle
    have : ¬(5 ≤ wordCount line) := by omega
    simp [this]

/-- The fields of the `FullArticleDict` article record that the claims refer
to. -/
structure Article where
  title : String
  url : String
  text : String
deriving DecidableEq

/-- `has_verify_message` in `_scrape_with_readability`: some phrase of
`VERIFY_MESSAGES` occurs in the lowercased cleaned text. -/
def hasVerifyMessage (cleaned : String) : Bool :=
  VERIFY_MESSAGES.any (fun msg => pyContains (pyLower cleaned) msg)

/-- The validation tail of `ArticleScraper._scrape_with_readability` applied
to the cleaned text (lines 195-239 of `article_scraper.py`).  The
under-100-words branch and the verification-message branch each first
evaluate a log f-string that reads `article_title`, a name not bound in that
function's scope (its parameters are `self` and `article_url` only, and no
global of that name exists), so both reject paths raise `NameError` before
reaching their `return None`; otherwise the article record is returned. -/
def readabilityPostClean (title url cleaned : String) :
    Except PyErr (Option Article) :=
  if wordCount cleaned < 100 then .error (.nameError "article_title")
  else if hasVerifyMessage cleaned then .error (.nameError "article_title")
  else .ok (some ⟨title, url, cleaned⟩)

/-- The validation tail of `ArticleScraper._scrape_with_simplified_parsing`
(lines 313-337): under 50 words the function logs (with its locally bound
`title`) and returns `None`; otherwise the article record is returned.
This tier has no verification-message check. -/
def simplifiedPostClean (title url cleaned : String) :
    Except PyErr (Option Article) :=
  if wordCount cleaned < 50 then .ok none
  else .ok (some ⟨title, url, cleaned⟩)

/-- Does a tier outcome deliver article content (neither a raise nor `None`)? -/
def acceptsContent : Except PyErr (Option Article) → Bool
  | .ok (some _) => true
  | _ => false

/-- The `retry_for_network` policy of `retry_utils.py`:
`max_retries=3, base_delay=1.0, rate_limit_delay=15.0`, defaults elsewhere. -/
def retry_for_network : RetryPolicy :=
  { max_retries := 3
    base_delay := 1
    max_delay := 60
    exponential_base := 2
    jitter := true
    rate_limit_delay := 15 }

/-- The body pattern of the public `scrape_article_with_*` methods: run the
breaker-guarded call, catch any exception and return `None` then. -/
def breakerGuard {α : Type} (cb : CircuitBreaker) (now : Int)
    (op : Except PyErr (Option α)) : CircuitBreaker × Option α :=
  let c := cb.call now op
  match c.result with
  | .ok a => (c.cb, a)
  | .error _ => (c.cb, none)

/-- `ArticleScraper.scrape_article_with_readability` for a run whose fetch
and parse succeed and produce the cleaned text `cleaned`: the retry-wrapped
`_scrape_with_readability` (each attempt's outcome is
`readabilityPostClean`) runs under `circuit_breaker.call`, and the public
method catches every exception and returns `None` in that case. -/
def scrape_article_with_readability (cb : CircuitBreaker) (now : Int)
    (rand : Nat → ℚ) (title url cleaned : String) :
    CircuitBreaker × Option Article :=
  breakerGuard cb now
    (retry_with_backoff retry_for_network networkRetryable rand
      (fun _ => readabilityPostClean title url cleaned)).result

/-- Both reject branches of the readability validation raise the `NameError`
for the unbound `article_title`. -/
theorem readabilityPostClean_reject (title url cleaned : String)
    (h : wordCount cleaned < 100 ∨ hasVerifyMessage cleaned = true) :
    readabilityPostClean title url cleaned =
      .error (.nameError "article_title") := by
  unfold readabilityPostClean
  rcases h with h | h
  · rw [if_pos h]
  · by_cases h100 : wordCount cleaned < 100
    · rw [if_pos h100]
    · rw [if_neg h100, if_pos h]

/-- An error outside the `exceptions` tuple propagates out of the retry
wrapper after a single invocation, with no sleeps. -/
theorem retry_nonretryable {α : Type} (p : RetryPolicy) (rand : Nat → ℚ)
    (e : PyErr) (he : networkRetryable e = false) :
    retry_with_backoff p networkRetryable rand
      (fun _ => (Except.error e : Except PyErr α)) = ⟨.error e, 1, []⟩ := by
  unfold retry_with_backoff
  simp [retryLoop, he]

/-- When the guarded operation raises, the public-method pattern returns
`None` (whether the breaker admitted the call or rejected it). -/
theorem breakerGuard_error {α : Type} (cb : CircuitBreaker) (now : Int)
    (e : PyErr) :
    breakerGuard cb now (Except.error e : Except PyErr (Option α)) =
      ((cb.call now (Except.error e : Except PyErr (Option α))).cb, none) := by
  unfold breakerGuard CircuitBreaker.call
  dsimp only
  by_cases h : (cb.gate now).2 <;> simp [h]

/-- A breaker in CLOSED state admits the call; a raising operation is
recorded through `_on_failure`. -/
theorem call_error_closed {α : Type} (cb : CircuitBreaker) (now : Int)
    (e : PyErr) (hcl : cb.state = .CLOSED) :
    (cb.call now (Except.error e : Except PyErr α)).cb = cb.on_failure now := by
  unfold CircuitBreaker.call CircuitBreaker.gate
  rw [hcl]
  simp

/-- A readability-tier validation reject surfaces through the retry wrapper
(the `NameError` is not retryable) to the breaker, and the public method
returns `None`. -/
theorem scrape_readability_of_reject (cb : CircuitBreaker) (now : Int)
    (rand : Nat → ℚ) (title url cleaned : String)
    (h : wordCount cleaned < 100 ∨ hasVerifyMessage cleaned = true) :
    scrape_article_with_readability cb now rand title url cleaned =
      ((cb.call now (Except.error (PyErr.nameError "article_title") :
          Except PyErr (Option Article))).cb, none) := by
  have h' := readabilityPostClean_reject title url cleaned h
  unfold scrape_article_with_readability
  simp only [h']
  rw [retry_nonretryable retry_for_network rand
    (PyErr.nameError "article_title") rfl]
  exact breakerGuard_error cb now _

/-- The 51-word cleaned text "are you human" repeated 17 times. -/
def verifyText51 : String := joinWords (List.replicate 17 "are you human")

/-- An 80-word cleaned text. -/
def text80 : String := joinWords (List.replicate 80 "w")

/-- C4 counterexample: this 51-word cleaned text contains the phrase
"are you human", yet the simplified/heuristic tier accepts it and returns
content — that tier never checks the verification phrases, so the claim that
both tiers reject such text is false. -/
theorem C4_counterexample_simplified_accepts_verify_text :
    pyContains (pyLower verifyText51) "are you human" = true ∧
    acceptsContent (simplifiedPostClean "t" "u" verifyText51) = true :=
  ⟨by decide, by decide⟩

/-- C4 amended: only the readability tier enforces the verification-phrase
check: every cleaned text containing "are you human" (case-insensitively,
i.e. in its lowercased form) yields no content there regardless of word count
— the reject raises internally and the public wrapper returns `None` — while
the simplified tier has no verification check and accepts any such text of
at least 50 words. -/
theorem C4_amended_verify_rejection (title url cleaned : String)
    (hv : pyContains (pyLower cleaned) "are you human" = true) :
    acceptsContent (readabilityPostClean title url cleaned) = false ∧
    (∀ (cb : CircuitBreaker) (now : Int) (rand : Nat → ℚ),
      (scrape_article_with_readability cb now rand title url cleaned).2 = none) ∧
    (50 ≤ wordCount cleaned →
      acceptsContent (simplifiedPostClean title url cleaned) = true) := by
  have hverify : hasVerifyMessage cleaned = true := by
    unfold hasVerifyMessage VERIFY_MESSAGES
    simp only [List.any_cons, List.any_nil, Bool.or_eq_true]
    exact Or.inr (Or.inl hv)
  refine ⟨?_, ?_, ?_⟩
  · rw [readabilityPostClean_reject title url cleaned (Or.inr hverify)]
    rfl
  · intro cb now rand
    rw [scrape_readability_of_reject cb now rand title url cleaned (Or.inr hverify)]
  · intro h50
    unfold simplifiedPostClean
    rw [if_neg (by omega)]
    rfl

/-- Witness for C4's amended claim at the 51-word verification text. -/
theorem C4_amended_verify_rejection_witness :
    pyContains (pyLower verifyText51) "are you human" = true ∧
    (acceptsContent (readabilityPostClean "t" "u" verifyText51) = false ∧
      (scrape_article_with_readability (CircuitBreaker.init 2 60) 5 (fun _ => 0)
        "t" "u" verifyText51).2 = none ∧
      (50 ≤ wordCount verifyText51 →
        acceptsContent (simplifiedPostClean "t" "u" verifyText51) = true)) :=
  have h := C4_amended_verify_rejection "t" "u" verifyText51 (by decide)
  ⟨by decide, h.1, h.2.1 (CircuitBreaker.init 2 60) 5 (fun _ => 0), h.2.2⟩

/-- C7: a cleaned text of exactly 80 words is rejected by the readability
tier (whose floor is 100 words: any cleaned text under 100 words yields no
content, and the public readability method returns `None`), while the
simplified/heuristic tier accepts it (its floor is 50 words: it rejects a
cleaned text exactly when the text has fewer than 50 words). -/
theorem C7_tier_word_floors (title url cleaned : String)
    (h80 : wordCount cleaned = 80) :
    acceptsContent (readabilityPostClean title url cleaned) = false ∧
    (∀ (cb : CircuitBreaker) (now : Int) (rand : Nat → ℚ),
      (scrape_article_with_readability cb now rand title url cleaned).2 = none) ∧
    acceptsContent (simplifiedPostClean title url cleaned) = true ∧
    (∀ c : String, wordCount c < 100 →
      acceptsContent (readabilityPostClean title url c) = false) ∧
    (∀ c : String,
      acceptsContent (simplifiedPostClean title url c) = true ↔ 50 ≤ wordCount c) := by
  have hfloor : ∀ c : String, wordCount c < 100 →
      acceptsContent (readabilityPostClean title url c) = false := by
    intro c hc
    rw [readabilityPostClean_reject title url c (Or.inl hc)]
    rfl
  refine ⟨hfloor cleaned (by omega), ?_, ?_, hfloor, ?_⟩
  · intro cb now rand
    rw [scrape_readability_of_reject cb now rand title url cleaned (Or.inl (by omega))]
  · unfold simplifiedPostClean
    rw [if_neg (by omega)]
    rfl
  · intro c
    unfold simplifiedPostClean
    by_cases hc : wordCount c < 50
    · rw [if_pos hc]
      constructor
      · intro hfalse
        exact absurd hfalse (by simp [acceptsContent])
      · omega
    · rw [if_neg hc]
      constructor
      · intro _
        omega
      · intro _
        rfl

/-- Witness for C7 at an explicit 80-word text. -/
theorem C7_tier_word_floors_witness :
    wordCount text80 = 80 ∧
    (acceptsContent (readabilityPostClean "t" "u" text80) = false ∧
      (scrape_article_with_readability (CircuitBreaker.init 2 60) 5 (fun _ => 0)
        "t" "u" text80).2 = none ∧
      acceptsContent (simplifiedPostClean "t" "u" text80) = true) :=
  have h := C7_tier_word_floors "t" "u" text80 (by decide)
  ⟨by decide, h.1, h.2.1 (CircuitBreaker.init 2 60) 5 (fun _ => 0), h.2.2.1⟩

/-- C10: in the readability tier every validation reject (cleaned text under
100 words, or containing a verification phrase) raises internally — the
reject-path log f-string reads `article_title`, which is unbound in
`_scrape_with_readability` — and, for a breaker in CLOSED state, that
exception is recorded by the shared circuit breaker as a failure
(incrementing `failure_count` and, at threshold, opening the breaker), while
the public `scrape_article_with_readability` still returns `None`. -/
theorem C10_reject_raises_and_breaker_records
    (cb : CircuitBreaker) (now : Int) (rand : Nat → ℚ)
    (title url cleaned : String) (hcl : cb.state = .CLOSED)
    (h : wordCount cleaned < 100 ∨ hasVerifyMessage cleaned = true) :
    readabilityPostClean title url cleaned =
      .error (.nameError "article_title") ∧
    (scrape_article_with_readability cb now rand title url cleaned).2 = none ∧
    (scrape_article_with_readability cb now rand title url cleaned).1.failure_count =
      cb.failure_count + 1 ∧
    (cb.failure_threshold ≤ cb.failure_count + 1 →
      (scrape_article_with_readability cb now rand title url cleaned).1.state =
        .OPEN) := by
  have hrw := scrape_readability_of_reject cb now rand title url cleaned h
  have hcb := call_error_closed (α := Option Article) cb now
    (PyErr.nameError "article_title") hcl
  refine ⟨readabilityPostClean_reject title url cleaned h, ?_, ?_, ?_⟩
  · rw [hrw]
  · rw [hrw]
    dsimp only
    rw [hcb]
    rfl
  · intro hth
    rw [hrw]
    dsimp only
    rw [hcb]
    unfold CircuitBreaker.on_failure
    dsimp only
    rw [if_pos hth]

/-- Witness for C10: a 2-word cleaned text against a fresh breaker with
threshold 1 (so this single reject opens it). -/
theorem C10_reject_raises_and_breaker_records_witness :
    (CircuitBreaker.init 1 60).state = .CLOSED ∧
    (wordCount "too short" < 100 ∨ hasVerifyMessage "too short" = true) ∧
    (readabilityPostClean "t" "u" "too short" =
        .error (.nameError "article_title") ∧
      (scrape_article_with_readability (CircuitBreaker.init 1 60) 5 (fun _ => 0)
        "t" "u" "too short").2 = none ∧
      (scrape_article_with_readability (CircuitBreaker.init 1 60) 5 (fun _ => 0)
        "t" "u" "too short").1.failure_count =
        (CircuitBreaker.init 1 60).failure_count + 1 ∧
      ((CircuitBreaker.init 1 60).failure_threshold ≤
          (CircuitBreaker.init 1 60).failure_count + 1 →
        (scrape_article_with_readability (CircuitBreaker.init 1 60) 5 (fun _ => 0)
          "t" "u" "too short").1.state = .OPEN)) :=
  ⟨rfl, Or.inl (by decide),
    C10_reject_raises_and_breaker_records (CircuitBreaker.init 1 60) 5 (fun _ => 0)
      "t" "u" "too short" rfl (Or.inl (by decide))⟩

/-- 6-bit value of a character of the standard base64 alphabet. -/
def b64Val (c : Char) : Option Nat :=
  if 'A' ≤ c ∧ c ≤ 'Z' then some (c.toNat - 65)
  else if 'a' ≤ c ∧ c ≤ 'z' then some (c.toNat - 71)
  else if '0' ≤ c ∧ c ≤ '9' then some (c.toNat - 48 + 52)
  else if c = '+' then some 62
  else if c = '/' then some 63
  else none

/-- The character scanner of `binascii.a2b_base64` in non-strict mode (the
path taken by `base64.b64decode` with default validation), after CPython's
`Modules/binascii.c`: alphabet characters are folded into quads — `quad_pos`
is the position inside the current quad and `leftchar` carries the pending
bits, emitting one byte at positions 1, 2 and 3 — while any other
non-padding character is skipped.  A `=` increments the consecutive-padding
counter `pads` (reset by every data character) and terminates the input
successfully once `quad_pos ≥ 2` and `quad_pos + pads ≥ 4`, discarding any
remaining input.  If the input ends inside a quad the call raises
`binascii.Error` (`none` here): at `quad_pos = 1` "number of data characters
cannot be 1 more than a multiple of 4", at 2 or 3 "Incorrect padding". -/
def a2b_base64_loop (quad_pos leftchar pads : Nat) (acc : List Nat) :
    List Char → Option (List Nat)
  | [] => if quad_pos = 0 then some acc.reverse else none
  | c :: rest =>
    if c = '=' then
      if 2 ≤ quad_pos ∧ 4 ≤ quad_pos + (pads + 1) then some acc.reverse
      else a2b_base64_loop quad_pos leftchar (pads + 1) acc rest
    else
      match b64Val c with
      | none => a2b_base64_loop quad_pos leftchar pads acc rest
      | some v =>
        match quad_pos with
        | 0 => a2b_base64_loop 1 v 0 acc rest
        | 1 => a2b_base64_loop 2 (v % 16) 0 ((leftchar * 4 + v / 16) :: acc) rest
        | 2 => a2b_base64_loop 3 (v % 4) 0 ((leftchar * 16 + v / 4) :: acc) rest
        | _ => a2b_base64_loop 0 0 0 ((leftchar * 64 + v) :: acc) rest

/-- The library call `base64.b64decode` with default validation: run the
non-strict `binascii.a2b_base64` scanner; `none` models the raised
`binascii.Error`. -/
def b64decode (s : String) : Option (List Nat) :=
  a2b_base64_loop 0 0 0 [] s.data

/-- `base64.urlsafe_b64decode`: translate the URL-safe alphabet characters
into the standard ones, then decode. -/
def urlsafe_b64decode (s : String) : Option (List Nat) :=
  b64decode (String.mk (s.data.map (fun c =>
    if c = '-' then '+' else if c = '_' then '/' else c)))

/-- `bytes.decode("latin1")`: one character per byte; never fails. -/
def latin1 (bs : List Nat) : String := String.mk (bs.map Char.ofNat)

/-- The part of the result of `urllib.parse.urlparse(source_url)` the decoder
reads: the hostname (`None` when absent) and the path. -/
structure ParsedUrl where
  hostname : Option String
  path : String
deriving DecidableEq

/-- The aggregator hosts recognized by the direct-decode strategy. -/
def GOOGLE_NEWS_HOSTS : List String :=
  ["news.google.com", "news.google.com.au", "news.google.co.uk",
   "news.google.ca", "news.google.de"]

/-- `url.hostname in [...]` (a `None` hostname is in no list). -/
def hostRecognized : Option String → Bool
  | some h => GOOGLE_NEWS_HOSTS.contains h
  | none => false

/-- Restore missing base64 padding: when `len % 4 ≠ 0`, append
`"=" * (4 - len % 4)`. -/
def padBase64 (s : String) : String :=
  let missing := s.length % 4
  if missing ≠ 0 then s ++ String.mk (List.replicate (4 - missing) '=') else s

/-- Python `s.rstrip("=")`. -/
def rstripEq (s : String) : String :=
  String.mk ((s.data.reverse.dropWhile (fun c => c == '=')).reverse)

/-- The new-style-encoding test of the direct-decode strategy: the decoded
text starts with the bytes `\x08\x13"` (8, 19, 34) or contains "AU_yqL". -/
def isNewStyle (decoded : String) : Bool :=
  [Char.ofNat 8, Char.ofNat 19, Char.ofNat 34].isPrefixOf decoded.data ||
    pyContains decoded "AU_yqL"

/-- `google_news_url_decoder.decode_google_news_url`, with the parse of
`source_url` passed in explicitly as `u` and the network-bound
`fetch_decoded_batch_execute` as the oracle `rpc` (invoked on the padded
token with its trailing `=` stripped).  Every failure branch — unrecognized
host or path shape, both base64 decodes failing, the RPC lookup raising, or
an old-style decode — returns the original `source_url` unchanged. -/
def decode_google_news_url (rpc : String → Except PyErr String)
    (u : ParsedUrl) (source_url : String) : String :=
  let path := pySplitOn (Char.ofNat 47) u.path
  if hostRecognized u.hostname ∧ 1 < path.length ∧
      (path[path.length - 2]? = some "articles" ∨
        path[path.length - 2]? = some "rss") then
    let base64_part := (pySplitOn '?' (path.getLastD "")).headD ""
    let padded := padBase64 base64_part
    match (urlsafe_b64decode padded).or (b64decode padded) with
    | none => source_url
    | some bytes =>
      let decoded_str := latin1 bytes
      if isNewStyle decoded_str then
        match rpc (rstripEq padded) with
        | .ok u2 => u2
        | .error _ => source_url
      else source_url
  else source_url

/-- The result dictionary of the `gnewsdecoder` library call, as far as
`google_news_decoder.decode_google_news_url` reads it. -/
structure GnewsResult where
  status : Bool
  decoded_url : Option String
deriving DecidableEq

/-- Python truthiness of `result.get("decoded_url")`: present and non-empty. -/
def optStrTruthy : Option String → Bool
  | none => false
  | some s => s != ""

/-- `google_news_decoder.decode_google_news_url`: reject an empty input;
try the `gnewsdecoder` library when available (accept when `status` and
`decoded_url` are truthy); then, when `use_fallback`, try the fallback
resolver (accept when it returns a non-empty URL different from the input);
exceptions from either collaborator are caught and logged; when every method
fails, return `None`. -/
def combined_decode_google_news_url (gnews_available : Bool)
    (gnews : String → Except PyErr GnewsResult)
    (fallback : String → Except PyErr String)
    (google_news_url : String) (use_fallback : Bool) : Option String :=
  if google_news_url = "" then none
  else
    let m1 : Option String :=
      if gnews_available then
        match gnews google_news_url with
        | .ok r =>
          if r.status && optStrTruthy r.decoded_url then r.decoded_url else none
        | .error _ => none
      else none
    match m1 with
    | some u2 => some u2
    | none =>
      if use_fallback then
        match fallback google_news_url with
        | .ok resolved =>
          if resolved != "" && resolved != google_news_url then some resolved
          else none
        | .error _ => none
      else none

/-- The direct-decode operation either returns the original URL unchanged or
returns the value of a successful RPC lookup: no other outcome exists. -/
theorem decode_google_news_url_cases (rpc : String → Except PyErr String)
    (u : ParsedUrl) (source_url : String) :
    decode_google_news_url rpc u source_url = source_url ∨
    ∃ t u2, rpc t = .ok u2 ∧ decode_google_news_url rpc u source_url = u2 := by
  unfold decode_google_news_url
  dsimp only
  split
  · split
    · exact Or.inl rfl
    · split
      · split
        · rename_i tok u2 hrpc
          exact Or.inr ⟨_, u2, hrpc, rfl⟩
        · exact Or.inl rfl
      · exact Or.inl rfl
  · exact Or.inl rfl

/-- C3 counterexample: with the primary decoder raising and the fallback
resolver returning the URL unchanged (every strategy failed), the combined
decoder `google_news_decoder.decode_google_news_url` returns `None` — an
absent result, not the original redirect URL. -/
theorem C3_counterexample_combined_decoder_returns_none :
    combined_decode_google_news_url true
      (fun _ => Except.error (PyErr.other "decode failed"))
      (fun u2 => Except.ok u2) "gnews://token" true = none := by
  rfl

/-- C3 amended: on total decode failure the low-level direct decoder
(`google_news_url_decoder.decode_google_news_url`) returns the original
redirect URL unchanged — it never raises and never returns an empty result —
but the combined decoder (`google_news_decoder.decode_google_news_url`),
which the orchestrator calls, signals total failure (primary decoder raising
or rejecting, fallback resolver returning the URL unchanged) with `None`: an
explicit absent value (still not an exception), not the unchanged URL. -/
theorem C3_amended_total_decode_failure
    (rpc : String → Except PyErr String) (u : ParsedUrl) (source_url : String)
    (hrpc : ∀ t, ∃ e, rpc t = Except.error e)
    (gnews : String → Except PyErr GnewsResult)
    (fallback : String → Except PyErr String) (url : String)
    (hurl : url ≠ "") (hg : ∃ e, gnews url = Except.error e)
    (hf : fallback url = Except.ok url) :
    decode_google_news_url rpc u source_url = source_url ∧
    combined_decode_google_news_url true gnews fallback url true = none := by
  constructor
  · rcases decode_google_news_url_cases rpc u source_url with h | ⟨t, u2, hok, _⟩
    · exact h
    · obtain ⟨e, he⟩ := hrpc t
      rw [he] at hok
      exact absurd hok (by simp)
  · obtain ⟨e, hge⟩ := hg
    unfold combined_decode_google_news_url
    rw [if_neg hurl]
    dsimp only
    rw [if_pos rfl, hge]
    dsimp only
    rw [if_pos rfl, hf]
    dsimp only
    simp

/-- Witness for C3's amended claim with concrete failing oracles. -/
theorem C3_amended_total_decode_failure_witness :
    decode_google_news_url (fun _ => Except.error PyErr.timeoutError)
      ⟨some "news.google.com", "/rss/articles/QUJDRA"⟩ "orig" = "orig" ∧
    combined_decode_google_news_url true
      (fun _ => Except.error (PyErr.other "gnews failed"))
      (fun u2 => Except.ok u2) "gnews://token" true = none :=
  C3_amended_total_decode_failure (fun _ => Except.error PyErr.timeoutError)
    ⟨some "news.google.com", "/rss/articles/QUJDRA"⟩ "orig"
    (fun _ => ⟨PyErr.timeoutError, rfl⟩)
    (fun _ => Except.error (PyErr.other "gnews failed"))
    (fun u2 => Except.ok u2) "gnews://token" (by decide)
    ⟨PyErr.other "gnews failed", rfl⟩ rfl

/-- `FullArticleScraper.scrape_full_article`, with its collaborators as
oracles: `validate` is `validate_url` (signals an invalid URL by raising
`ValueError`, caught here), `decode` the combined decoder (total, returns
`None` on failure), `selenium` is `resolve_google_news_url_with_selenium`,
`tier1`..`tier3` are the three public scraper methods (each catches its own
exceptions and returns `None` on failure), and `finish` is the
image-download / save / markdown post-processing applied to a successful
extraction.  The trailing `except` handlers catch every exception raised in
the body and return `None`. -/
def scrape_full_article (validate : String → Except PyErr String)
    (decode : String → Option String)
    (selenium : String → Except PyErr String)
    (tier1 tier2 tier3 : String → Option Article)
    (finish : Article → Except PyErr Article)
    (article_url : String) : Option Article :=
  match validate article_url with
  | .error _ => none
  | .ok vurl =>
    let body : Except PyErr (Option Article) :=
      match (match decode vurl with
             | some r => Except.ok r
             | none => selenium vurl) with
      | .error e => .error e
      | .ok real_url =>
        match validate real_url with
        | .error _ => .ok none
        | .ok vreal =>
          match ((tier1 vreal).or (tier2 vreal)).or (tier3 vreal) with
          | none => .ok none
          | some art =>
            match finish art with
            | .error e => .error e
            | .ok art2 => .ok (some art2)
    match body with
    | .ok r => r
    | .error _ => none

/-- C9: when decoding fails on every URL and all three extraction tiers fail
or reject on every URL, the orchestrator's acquire operation returns the
explicit failure value `None` to the caller — whatever the validator, the
Selenium resolver and the post-processing do — and, being a total function
into `Option`, never lets an exception escape the call. -/
theorem C9_acquire_returns_failure_value
    (validate : String → Except PyErr String)
    (decode : String → Option String)
    (selenium : String → Except PyErr String)
    (tier1 tier2 tier3 : String → Option Article)
    (finish : Article → Except PyErr Article) (article_url : String)
    (hd : ∀ u2, decode u2 = none)
    (h1 : ∀ u2, tier1 u2 = none) (h2 : ∀ u2, tier2 u2 = none)
    (h3 : ∀ u2, tier3 u2 = none) :
    scrape_full_article validate decode selenium tier1 tier2 tier3 finish
      article_url = none := by
  unfold scrape_full_article
  cases hval : validate article_url with
  | error e => rfl
  | ok vurl =>
    dsimp only
    rw [hd vurl]
    cases hsel : selenium vurl with
    | error e => rfl
    | ok real_url =>
      dsimp only
      cases hval2 : validate real_url with
      | error e => rfl
      | ok vreal =>
        dsimp only
        rw [h1 vreal, h2 vreal, h3 vreal]
        rfl

/-- Witness for C9 with concrete failing oracles. -/
theorem C9_acquire_returns_failure_value_witness :
    scrape_full_article (fun s => Except.ok s) (fun _ => none)
      (fun _ => Except.ok "https://example.com/a")
      (fun _ => none) (fun _ => none) (fun _ => none)
      (fun a => Except.ok a) "https://news.google.com/rss/articles/x" = none :=
  C9_acquire_returns_failure_value (fun s => Except.ok s) (fun _ => none)
    (fun _ => Except.ok "https://example.com/a")
    (fun _ => none) (fun _ => none) (fun _ => none)
    (fun a => Except.ok a) "https://news.google.com/rss/articles/x"
    (fun _ => rfl) (fun _ => rfl) (fun _ => rfl) (fun _ => rfl)

end NewsScraper
